import Mathlib

/-!
Verification of the judging engine of `problemtools/verifyproblem.py`.

Shallow embedding conventions:
* Python floats (runtimes, scores) are modelled as rationals (`ℚ`); none of
  the verified properties depend on floating-point rounding.
* POSIX wait statuses are modelled as naturals with the glibc bit layout.
* `SubmissionResult.testcase` fields hold test-case identifiers (`Nat`)
  instead of object references; `sample_failures` likewise holds the
  identifiers of the failing leaf results.
* Python exceptions (the `rews` NameError on line 590, `min()` on an empty
  sequence, `IndexError` in `natural_sort_le`) surface as `Except.error`.
-/

set_option maxRecDepth 4000

/-- The closed verdict enumeration from `verifyproblem.py` (`Verdict` type alias). -/
inductive Verdict where
  | AC | TLE | OLE | MLE | RTE | WA | PAC | JE
deriving DecidableEq, Repr

/-- Structure `SubmissionResult` (verifyproblem.py lines 43-60).  `verdict` is optional
because aggregation starts from `SubmissionResult(None)`. -/
structure SubmissionResult where
  verdict : Option Verdict
  score : Option ℚ
  reason : Option String
  additional_info : Option String
  testcase : Option Nat
  runtime_testcase : Option Nat
  runtime : ℚ
  ac_runtime : ℚ
  ac_runtime_testcase : Option Nat
  validator_first : Bool
  sample_failures : List Nat
deriving DecidableEq, Repr

/-- The `SubmissionResult.__init__` defaults: only the verdict (and, at some
call sites, score / reason / additional_info) is supplied; everything else
starts as in lines 44-55 of the source. -/
def SubmissionResult.init (v : Option Verdict) : SubmissionResult :=
  { verdict := v
    score := none
    reason := none
    additional_info := none
    testcase := none
    runtime_testcase := none
    runtime := -1
    ac_runtime := -1
    ac_runtime_testcase := none
    validator_first := false
    sample_failures := [] }

/-- Method `SubmissionResult.set_ac_runtime` (lines 57-60). -/
def set_ac_runtime (r : SubmissionResult) : SubmissionResult :=
  if r.verdict = some Verdict.AC then
    { r with ac_runtime := r.runtime, ac_runtime_testcase := r.runtime_testcase }
  else r

/-- The three-limit classification step of `TestCase._run_submission_real`
(lines 264-284).  `res_high0` is the result produced by the execution phase
(interactive or not), with its `runtime` already recorded.  Python mutates
shared objects here; the value semantics below reproduces the exact outcome:
in the first branch all three returned results are one shared object, in the
second branch `res` aliases `res_high`, in the third branch `res_low` aliases
`res` and `res_high.runtime` is overwritten *before* `res.runtime` is copied
from it, and in the last branch `res` aliases `res_low`. -/
def classify_limits (res_high0 : SubmissionResult) (timelim timelim_low : ℚ) :
    SubmissionResult × SubmissionResult × SubmissionResult :=
  if res_high0.runtime ≤ timelim_low then
    let r := set_ac_runtime res_high0
    (r, r, r)
  else if res_high0.runtime ≤ timelim then
    let res_low := { SubmissionResult.init (some Verdict.TLE) with runtime := res_high0.runtime }
    (set_ac_runtime res_high0, set_ac_runtime res_low, set_ac_runtime res_high0)
  else if res_high0.validator_first = true ∧ res_high0.verdict = some Verdict.WA then
    let res_high := { res_high0 with runtime := timelim_low }
    let res := { SubmissionResult.init (some Verdict.WA) with
                   validator_first := true, runtime := res_high.runtime }
    (set_ac_runtime res, set_ac_runtime res, set_ac_runtime res_high)
  else
    let res_low := { SubmissionResult.init (some Verdict.TLE) with runtime := res_high0.runtime }
    (set_ac_runtime res_low, set_ac_runtime res_low, set_ac_runtime res_high0)

/-- Claim C1: for a non-alias, non-reused test case, `_run_submission_real`
classifies the triple by `r = res_hi.runtime`: if `r ≤ lo` the three returned
results coincide; if `lo < r ≤ timelim` (including `r = timelim`) then
`res_lo` is TLE and `res = res_hi`; if `r > timelim` with `validator_first`
and verdict WA, then `res` and `res_lo` are WA with `validator_first` set and
`res_hi.runtime` is rewritten to `lo`; in every other `r > timelim` case both
`res` and `res_lo` are TLE. -/
theorem run_submission_three_limit_classification
    (rh : SubmissionResult) (timelim timelim_low : ℚ) (hlo : timelim_low ≤ timelim) :
    (rh.runtime ≤ timelim_low →
      (classify_limits rh timelim timelim_low).1 = (classify_limits rh timelim timelim_low).2.2 ∧
      (classify_limits rh timelim timelim_low).2.1 = (classify_limits rh timelim timelim_low).2.2) ∧
    (timelim_low < rh.runtime → rh.runtime ≤ timelim →
      (classify_limits rh timelim timelim_low).2.1.verdict = some Verdict.TLE ∧
      (classify_limits rh timelim timelim_low).1 = (classify_limits rh timelim timelim_low).2.2) ∧
    (timelim < rh.runtime → rh.validator_first = true → rh.verdict = some Verdict.WA →
      (classify_limits rh timelim timelim_low).1.verdict = some Verdict.WA ∧
      (classify_limits rh timelim timelim_low).1.validator_first = true ∧
      (classify_limits rh timelim timelim_low).2.1 = (classify_limits rh timelim timelim_low).1 ∧
      (classify_limits rh timelim timelim_low).2.2.runtime = timelim_low) ∧
    (timelim < rh.runtime → ¬(rh.validator_first = true ∧ rh.verdict = some Verdict.WA) →
      (classify_limits rh timelim timelim_low).1.verdict = some Verdict.TLE ∧
      (classify_limits rh timelim timelim_low).2.1.verdict = some Verdict.TLE) := by
  refine ⟨fun h1 => ?_, fun hgt hle => ?_, fun hgt hvf hwa => ?_, fun hgt hnwa => ?_⟩
  · simp [classify_limits, h1]
  · have h1 : ¬ rh.runtime ≤ timelim_low := not_le.mpr hgt
    simp [classify_limits, h1, hle, set_ac_runtime, SubmissionResult.init]
  · have h1 : ¬ rh.runtime ≤ timelim_low := not_le.mpr (lt_of_le_of_lt hlo hgt)
    have h2 : ¬ rh.runtime ≤ timelim := not_le.mpr hgt
    have h3 : rh.validator_first = true ∧ rh.verdict = some Verdict.WA := ⟨hvf, hwa⟩
    simp [classify_limits, h1, h2, h3, set_ac_runtime, SubmissionResult.init, hwa]
  · have h1 : ¬ rh.runtime ≤ timelim_low := not_le.mpr (lt_of_le_of_lt hlo hgt)
    have h2 : ¬ rh.runtime ≤ timelim := not_le.mpr hgt
    simp [classify_limits, h1, h2, hnwa, set_ac_runtime, SubmissionResult.init]

/-- Witness for the C1 theorem at a concrete input: runtime 7 with
`lo = 3 < 7 ≤ timelim = 8` yields a TLE shadow result and `res = res_hi`. -/
theorem run_submission_three_limit_classification_witness :
    (classify_limits { SubmissionResult.init (some Verdict.AC) with runtime := 7 } 8 3).2.1.verdict
      = some Verdict.TLE ∧
    (classify_limits { SubmissionResult.init (some Verdict.AC) with runtime := 7 } 8 3).1
      = (classify_limits { SubmissionResult.init (some Verdict.AC) with runtime := 7 } 8 3).2.2 :=
  (run_submission_three_limit_classification
      { SubmissionResult.init (some Verdict.AC) with runtime := 7 } 8 3 (by norm_num)).2.1
    (by norm_num) (by norm_num)

/-! POSIX wait-status interpretation (`os.WIFEXITED` and friends on Linux,
glibc bit layout: low 7 bits = termination signal, next byte = exit code). -/

/-- Python `os.WIFEXITED(status)`: exited normally. -/
def WIFEXITED (s : Nat) : Bool := s % 128 == 0

/-- Python `os.WEXITSTATUS(status)`: the exit code byte. -/
def WEXITSTATUS (s : Nat) : Nat := s / 256 % 256

/-- Python `os.WTERMSIG(status)`: the terminating signal. -/
def WTERMSIG (s : Nat) : Nat := s % 128

/-- Python `os.WIFSIGNALED(status)`: killed by a signal (low bits neither 0 nor 0x7f). -/
def WIFSIGNALED (s : Nat) : Bool := (s % 128 != 0) && (s % 128 != 127)

/-- Linux `signal.SIGXCPU`. -/
def SIGXCPU : Nat := 24

/-- Linux `signal.SIGUSR1`. -/
def SIGUSR1 : Nat := 10

/-- Function `is_TLE` (verifyproblem.py lines 34-37). -/
def is_TLE (status : Nat) (may_signal_with_usr1 : Bool) : Bool :=
  WIFSIGNALED status &&
    (WTERMSIG status == SIGXCPU || (may_signal_with_usr1 && WTERMSIG status == SIGUSR1))

/-- Function `is_RTE` (verifyproblem.py lines 40-41). -/
def is_RTE (status : Nat) : Bool :=
  !WIFEXITED status || WEXITSTATUS status != 0

/-- Method `OutputValidators._parse_validator_results` (lines 1353-1384).
`score_file` models the `score.txt` file in the feedback directory:
`none` = absent, `some none` = present but unparseable as a float,
`some (some q)` = present with value `q`.  `feedback` models the collected
feedback-directory text returned by `__get_feedback`. -/
def parse_validator_results (custom_score : Bool) (score_file : Option (Option ℚ))
    (status : Nat) (feedback : Option String) : SubmissionResult :=
  if !custom_score && score_file.isSome then
    { SubmissionResult.init (some Verdict.JE) with
        reason := some "validator produced score.txt but problem does not have custom scoring activated" }
  else if !WIFEXITED status then
    { SubmissionResult.init (some Verdict.JE) with
        reason := some "output validator crashed", additional_info := feedback }
  else if WEXITSTATUS status != 42 && WEXITSTATUS status != 43 then
    { SubmissionResult.init (some Verdict.JE) with
        reason := some "output validator exited with unexpected status", additional_info := feedback }
  else if WEXITSTATUS status == 43 then
    { SubmissionResult.init (some Verdict.WA) with additional_info := feedback }
  else if custom_score then
    match score_file with
    | some (some s) => { SubmissionResult.init (some Verdict.AC) with score := some s }
    | some none =>
      { SubmissionResult.init (some Verdict.JE) with
          reason := some "failed to parse validator score" }
    | none =>
      { SubmissionResult.init (some Verdict.JE) with
          reason := some "problem has custom scoring but validator did not produce score.txt" }
  else
    SubmissionResult.init (some Verdict.AC)

/-- The verdict-selection core of `OutputValidators.validate_interactive`
(lines 1425-1447), entered when the coordinator did not crash and its output
line matched the expected pattern.  Inputs are the parsed fields of that line
(`val_status`, `sub_status`, `sub_runtime`, trailing token `first`) plus the
data `_parse_validator_results` consumes. -/
def interactive_classify (custom_score : Bool) (score_file : Option (Option ℚ))
    (feedback : Option String) (val_status sub_status : Nat) (sub_runtime : ℚ)
    (first : String) (timelim : ℚ) : SubmissionResult :=
  let val_JE := !WIFEXITED val_status ||
    (WEXITSTATUS val_status != 42 && WEXITSTATUS val_status != 43)
  let val_WA := WIFEXITED val_status && WEXITSTATUS val_status == 43
  if val_JE || (val_WA && first == "validator") then
    let sub_runtime2 := if sub_runtime > timelim then timelim else sub_runtime
    let res := parse_validator_results custom_score score_file val_status feedback
    { res with runtime := sub_runtime2, validator_first := first == "validator" }
  else if is_TLE sub_status true then
    { SubmissionResult.init (some Verdict.TLE) with
        runtime := sub_runtime, validator_first := first == "validator" }
  else if is_RTE sub_status then
    { SubmissionResult.init (some Verdict.RTE) with
        runtime := sub_runtime, validator_first := first == "validator" }
  else
    let res := parse_validator_results custom_score score_file val_status feedback
    { res with runtime := sub_runtime, validator_first := first == "validator" }

/-- Claim C2: in `validate_interactive`, when the coordinator did not crash
and its output matched the pattern, the verdict precedence is: validator JE,
or validator WA having exited first, takes the validator's parsed verdict and
clamps the submission runtime down to `timelim` when it exceeds `timelim`;
otherwise submission TLE (SIGXCPU or SIGUSR1) gives TLE; otherwise submission
RTE gives RTE; otherwise the validator's parsed verdict.  The result's
`validator_first` is true iff the trailing token is `validator`. -/
theorem interactive_verdict_precedence
    (custom_score : Bool) (score_file : Option (Option ℚ)) (feedback : Option String)
    (val_status sub_status : Nat) (sub_runtime : ℚ) (first : String) (timelim : ℚ) :
    (((!WIFEXITED val_status || (WEXITSTATUS val_status != 42 && WEXITSTATUS val_status != 43))
        || ((WIFEXITED val_status && WEXITSTATUS val_status == 43) && first == "validator")) = true →
      (interactive_classify custom_score score_file feedback val_status sub_status sub_runtime first timelim).verdict
          = (parse_validator_results custom_score score_file val_status feedback).verdict ∧
      (interactive_classify custom_score score_file feedback val_status sub_status sub_runtime first timelim).runtime
          = (if sub_runtime > timelim then timelim else sub_runtime)) ∧
    (((!WIFEXITED val_status || (WEXITSTATUS val_status != 42 && WEXITSTATUS val_status != 43))
        || ((WIFEXITED val_status && WEXITSTATUS val_status == 43) && first == "validator")) = false →
      (is_TLE sub_status true = true →
        (interactive_classify custom_score score_file feedback val_status sub_status sub_runtime first timelim).verdict
          = some Verdict.TLE) ∧
      (is_TLE sub_status true = false → is_RTE sub_status = true →
        (interactive_classify custom_score score_file feedback val_status sub_status sub_runtime first timelim).verdict
          = some Verdict.RTE) ∧
      (is_TLE sub_status true = false → is_RTE sub_status = false →
        (interactive_classify custom_score score_file feedback val_status sub_status sub_runtime first timelim).verdict
          = (parse_validator_results custom_score score_file val_status feedback).verdict)) ∧
    ((interactive_classify custom_score score_file feedback val_status sub_status sub_runtime first timelim).validator_first
        = true ↔ first = "validator") := by
  refine ⟨fun htrig => ?_, fun htrig => ⟨fun htle => ?_, fun htle hrte => ?_, fun htle hrte => ?_⟩, ?_⟩
  · simp [interactive_classify, htrig]
  · simp [interactive_classify, htrig, htle, SubmissionResult.init]
  · simp [interactive_classify, htrig, htle, hrte, SubmissionResult.init]
  · simp [interactive_classify, htrig, htle, hrte, SubmissionResult.init]
  · by_cases htrig : ((!WIFEXITED val_status || (WEXITSTATUS val_status != 42 && WEXITSTATUS val_status != 43))
        || ((WIFEXITED val_status && WEXITSTATUS val_status == 43) && first == "validator")) = true
    · simp [interactive_classify, htrig]
    · simp only [Bool.not_eq_true] at htrig
      by_cases htle : is_TLE sub_status true = true
      · simp [interactive_classify, htrig, htle, SubmissionResult.init]
      · simp only [Bool.not_eq_true] at htle
        by_cases hrte : is_RTE sub_status = true
        · simp [interactive_classify, htrig, htle, hrte, SubmissionResult.init]
        · simp only [Bool.not_eq_true] at hrte
          simp [interactive_classify, htrig, htle, hrte, SubmissionResult.init]

/-- Witness for the C2 theorem: validator exited with code 0 (neither 42 nor
43, hence validator JE), submission runtime 10 exceeding `timelim = 4`: the
validator's parsed verdict (JE) is taken and the runtime is clamped to 4. -/
theorem interactive_verdict_precedence_witness :
    (interactive_classify false none none 0 0 10 "submission" 4).verdict
      = (parse_validator_results false none 0 none).verdict ∧
    (interactive_classify false none none 0 0 10 "submission" 4).runtime = 4 := by
  have h := (interactive_verdict_precedence false none none 0 0 10 "submission" 4).1 (by decide)
  refine ⟨h.1, ?_⟩
  rw [h.2]
  norm_num

/-- Counterexample to claim C5 as stated: the claim asserts that exit status
43 always yields WA, but the source checks "score.txt present while custom
scoring is off" before the exit-code dispatch, so a validator that exits 43
after writing `score.txt` (on a non-custom-scoring problem) gets JE. -/
theorem validator_exit_code_protocol_counterexample :
    WIFEXITED (43 * 256) = true ∧ WEXITSTATUS (43 * 256) = 43 ∧
    (parse_validator_results false (some (some 1)) (43 * 256) none).verdict = some Verdict.JE ∧
    (parse_validator_results false (some (some 1)) (43 * 256) none).verdict ≠ some Verdict.WA := by
  refine ⟨by decide, by decide, rfl, by decide⟩

/-- Claim C5 amended: the "score.txt present without custom scoring" check
precedes everything and yields JE regardless of exit status; otherwise exit
status 42 yields AC with the score read from score.txt exactly when custom
scoring is active (missing or unparseable score.txt under custom scoring
yields JE), exit status 43 yields WA with the feedback attached as
additional_info, and any other exit status or unclean exit yields JE. -/
theorem validator_exit_code_protocol
    (custom_score : Bool) (score_file : Option (Option ℚ)) (status : Nat)
    (feedback : Option String) :
    (custom_score = false → score_file.isSome = true →
      (parse_validator_results custom_score score_file status feedback).verdict = some Verdict.JE) ∧
    (custom_score = true ∨ score_file = none →
      (WIFEXITED status = false →
        (parse_validator_results custom_score score_file status feedback).verdict = some Verdict.JE) ∧
      (WIFEXITED status = true → WEXITSTATUS status ≠ 42 → WEXITSTATUS status ≠ 43 →
        (parse_validator_results custom_score score_file status feedback).verdict = some Verdict.JE) ∧
      (WIFEXITED status = true → WEXITSTATUS status = 43 →
        (parse_validator_results custom_score score_file status feedback).verdict = some Verdict.WA ∧
        (parse_validator_results custom_score score_file status feedback).additional_info = feedback) ∧
      (WIFEXITED status = true → WEXITSTATUS status = 42 →
        (custom_score = false →
          (parse_validator_results custom_score score_file status feedback).verdict = some Verdict.AC ∧
          (parse_validator_results custom_score score_file status feedback).score = none) ∧
        (custom_score = true →
          (score_file = none →
            (parse_validator_results custom_score score_file status feedback).verdict = some Verdict.JE) ∧
          (score_file = some none →
            (parse_validator_results custom_score score_file status feedback).verdict = some Verdict.JE) ∧
          (∀ q : ℚ, score_file = some (some q) →
            (parse_validator_results custom_score score_file status feedback).verdict = some Verdict.AC ∧
            (parse_validator_results custom_score score_file status feedback).score = some q)))) := by
  constructor
  · intro hc hs
    simp [parse_validator_results, hc, hs, SubmissionResult.init]
  · intro hcase
    have hfirst : (!custom_score && score_file.isSome) = false := by
      rcases hcase with hc | hs
      · simp [hc]
      · simp [hs]
    refine ⟨fun hex => ?_, fun hex h42 h43 => ?_, fun hex h43 => ?_, fun hex h42 => ⟨fun hc => ?_, fun hc => ?_⟩⟩
    · simp [parse_validator_results, hfirst, hex, SubmissionResult.init]
    · simp [parse_validator_results, hfirst, hex, h42, h43, SubmissionResult.init]
    · simp [parse_validator_results, hfirst, hex, h43, SubmissionResult.init]
    · have hsf : score_file = none := by
        rcases hcase with h | h
        · rw [hc] at h; exact absurd h (by decide)
        · exact h
      simp [parse_validator_results, hfirst, hex, h42, hc, hsf, SubmissionResult.init]
    · refine ⟨fun hsf => ?_, fun hsf => ?_, fun q hsf => ?_⟩ <;>
        simp [parse_validator_results, hfirst, hex, h42, hc, hsf, SubmissionResult.init]

/-- Witness for the amended C5 theorem: custom scoring on, exit status 42,
score.txt holding 7/2 gives AC with score 7/2. -/
theorem validator_exit_code_protocol_witness :
    (parse_validator_results true (some (some (7/2))) (42 * 256) none).verdict = some Verdict.AC ∧
    (parse_validator_results true (some (some (7/2))) (42 * 256) none).score = some (7/2) := by
  have h := ((validator_exit_code_protocol true (some (some (7/2))) (42 * 256) none).2
    (Or.inl rfl)).2.2.2 (by decide) (by decide)
  exact (h.2 rfl).2.2 (7/2) rfl

/-! Aggregation of child results (`TestCaseGroup.aggregate_results`,
lines 565-612).  Python exceptions that escape the function are modelled as
`Except.error`: the `rews` NameError of line 590 and the `ValueError` /
`TypeError` that `min` / `sum` raise on empty or `None`-containing score
lists.  The out-of-bounds-score check of lines 605-611 only emits a
diagnostic and never alters the returned result, so it is not modelled. -/

/-- The per-child folding loop at the top of `aggregate_results` (lines
568-575): maximal runtime / AC-runtime tracking and sample-failure
accumulation.  Written as one record so field projections reduce. -/
def aggregate_fold_step (acc r : SubmissionResult) : SubmissionResult :=
  { verdict := acc.verdict
    score := acc.score
    reason := acc.reason
    additional_info := acc.additional_info
    testcase := acc.testcase
    runtime := if r.runtime > acc.runtime then r.runtime else acc.runtime
    runtime_testcase := if r.runtime > acc.runtime then r.runtime_testcase else acc.runtime_testcase
    ac_runtime := if r.ac_runtime > acc.ac_runtime then r.ac_runtime else acc.ac_runtime
    ac_runtime_testcase :=
      if r.ac_runtime > acc.ac_runtime then r.ac_runtime_testcase else acc.ac_runtime_testcase
    validator_first := acc.validator_first
    sample_failures := acc.sample_failures ++ r.sample_failures }

/-- Method `TestCaseGroup.aggregate_results` (lines 565-612).  `is_scoring` is
`problem.is_scoring`; `aggregation` is `config['grading']['aggregation']`.
Line 590 of the source reads `rews.verdict` — an undefined name — inside the
list comprehension of the non-scoring branch, so any non-empty child list on
a pass/fail problem raises `NameError` (the comprehension body is never
evaluated on an empty list). -/
def aggregate_results (is_scoring : Bool) (aggregation : String)
    (sub_results : List SubmissionResult) : Except String SubmissionResult :=
  let res := sub_results.foldl aggregate_fold_step (SubmissionResult.init none)
  match sub_results.find? (fun r => decide (r.verdict = some Verdict.JE)) with
  | some judge_error =>
    .ok { res with verdict := judge_error.verdict, reason := judge_error.reason,
                   additional_info := judge_error.additional_info,
                   testcase := judge_error.testcase }
  | none =>
    let res := match sub_results.getLast? with
      | some last => { res with testcase := last.testcase, additional_info := last.additional_info }
      | none => res
    if !is_scoring then
      match sub_results with
      | [] => .ok { res with verdict := some Verdict.AC }
      | _ :: _ => .error "NameError: name rews is not defined"
    else if aggregation = "min" then
      let v := ((sub_results.filter fun r => decide (r.verdict ≠ some Verdict.AC)).map
          (fun r => r.verdict) ++ [some Verdict.AC]).headD none
      match sub_results.map (fun r => r.score) with
      | [] => .error "ValueError: min arg is an empty sequence"
      | [s] => .ok { res with verdict := v, score := s }
      | s :: rest =>
        if (s :: rest).all Option.isSome then
          match (s :: rest).filterMap id with
          | [] => .error "unreachable"
          | q :: qs => .ok { res with verdict := v, score := some (qs.foldl min q) }
        else .error "TypeError: comparisons with None"
    else if aggregation = "sum" then
      let v :=
        if sub_results.all (fun r => decide (r.verdict = some Verdict.AC)) then
          some Verdict.AC
        else match sub_results with
          | [] => none
          | r0 :: _ =>
            if sub_results.all
                (fun r => decide (r.verdict ≠ some Verdict.AC ∧ r.verdict ≠ some Verdict.PAC)) then
              r0.verdict
            else some Verdict.AC
      if sub_results.all (fun r => r.score.isSome) then
        .ok { res with verdict := v, score := some ((sub_results.filterMap (fun r => r.score)).sum) }
      else .error "TypeError: sum with None"
    else .ok res

/-- The folding loop never touches verdict, score, reason, additional_info or
testcase. -/
theorem aggregate_fold_preserves (l : List SubmissionResult) (acc : SubmissionResult) :
    (l.foldl aggregate_fold_step acc).verdict = acc.verdict ∧
    (l.foldl aggregate_fold_step acc).score = acc.score ∧
    (l.foldl aggregate_fold_step acc).reason = acc.reason := by
  induction l generalizing acc with
  | nil => exact ⟨rfl, rfl, rfl⟩
  | cons r t ih => exact ih (aggregate_fold_step acc r)

/-- Claim C7: if any child result has verdict JE, the aggregate adopts that
(first such) child's verdict, reason, additional_info and testcase and is
returned immediately, regardless of the other children and of the grading
mode, with no score assigned. -/
theorem aggregate_je_short_circuit (is_scoring : Bool) (aggregation : String)
    (sub_results : List SubmissionResult) (je : SubmissionResult)
    (hje : sub_results.find? (fun r => decide (r.verdict = some Verdict.JE)) = some je) :
    ∃ res, aggregate_results is_scoring aggregation sub_results = Except.ok res ∧
      res.verdict = je.verdict ∧ res.verdict = some Verdict.JE ∧
      res.reason = je.reason ∧ res.additional_info = je.additional_info ∧
      res.testcase = je.testcase ∧ res.score = none := by
  have hverdict : je.verdict = some Verdict.JE := by
    have := List.find?_some hje
    exact of_decide_eq_true this
  unfold aggregate_results
  rw [hje]
  exact ⟨_, rfl, rfl, hverdict, rfl, rfl, rfl,
    (aggregate_fold_preserves sub_results (SubmissionResult.init none)).2.1⟩

/-- Witness for the C7 theorem: a JE child followed by an AC child still
aggregates to JE with the JE child's diagnostics, in scoring sum mode. -/
theorem aggregate_je_short_circuit_witness :
    ∃ res, aggregate_results true "sum"
        [{ SubmissionResult.init (some Verdict.JE) with
             reason := some "validator crashed", testcase := some 3 },
         SubmissionResult.init (some Verdict.AC)] = Except.ok res ∧
      res.verdict = some Verdict.JE ∧ res.reason = some "validator crashed" ∧
      res.testcase = some 3 ∧ res.score = none := by
  obtain ⟨res, hok, _, hv, hr, _, ht, hs⟩ := aggregate_je_short_circuit true "sum"
    [{ SubmissionResult.init (some Verdict.JE) with
         reason := some "validator crashed", testcase := some 3 },
     SubmissionResult.init (some Verdict.AC)]
    { SubmissionResult.init (some Verdict.JE) with
        reason := some "validator crashed", testcase := some 3 }
    (by decide)
  exact ⟨res, hok, hv, hr, ht, hs⟩

/-- Claim C3: for a scoring sum-group with a non-empty child list, no JE
child (and, as the run always guarantees, every child carrying a score), the
aggregate's score is the sum of the child scores; the verdict is AC when all
children are AC, the first child's verdict when no child is AC or PAC, and
AC (partial credit) otherwise. -/
theorem aggregate_sum_scoring (sub_results : List SubmissionResult)
    (hne : sub_results ≠ [])
    (hje : ∀ r ∈ sub_results, r.verdict ≠ some Verdict.JE)
    (hs : ∀ r ∈ sub_results, r.score.isSome = true) :
    ∃ res, aggregate_results true "sum" sub_results = Except.ok res ∧
      res.score = some ((sub_results.filterMap (fun r => r.score)).sum) ∧
      ((∀ r ∈ sub_results, r.verdict = some Verdict.AC) → res.verdict = some Verdict.AC) ∧
      (∀ r0 t, sub_results = r0 :: t →
        (∀ r ∈ sub_results, r.verdict ≠ some Verdict.AC ∧ r.verdict ≠ some Verdict.PAC) →
        res.verdict = r0.verdict) ∧
      (¬(∀ r ∈ sub_results, r.verdict = some Verdict.AC) →
        ¬(∀ r ∈ sub_results, r.verdict ≠ some Verdict.AC ∧ r.verdict ≠ some Verdict.PAC) →
        res.verdict = some Verdict.AC) := by
  have hfind : sub_results.find? (fun r => decide (r.verdict = some Verdict.JE)) = none := by
    rw [List.find?_eq_none]
    intro r hr
    simpa using hje r hr
  obtain ⟨last, hlast⟩ : ∃ l, sub_results.getLast? = some l := by
    cases hgl : sub_results.getLast? with
    | none => exact absurd (List.getLast?_eq_none_iff.mp hgl) hne
    | some l => exact ⟨l, rfl⟩
  have hall : sub_results.all (fun r => r.score.isSome) = true :=
    List.all_eq_true.mpr hs
  unfold aggregate_results
  rw [hfind, hlast]
  simp only [Bool.not_true, Bool.false_eq_true, if_false, hall, if_true]
  refine ⟨_, rfl, rfl, fun hac => ?_, fun r0 t hcons hnon => ?_, fun hnac hnnon => ?_⟩
  · have h : sub_results.all (fun r => decide (r.verdict = some Verdict.AC)) = true :=
      List.all_eq_true.mpr (fun r hr => decide_eq_true (hac r hr))
    simp [h]
  · have h : sub_results.all (fun r => decide (r.verdict = some Verdict.AC)) = false := by
      rw [← Bool.not_eq_true]
      intro hcontra
      rcases hcons with rfl
      exact (hnon r0 (List.mem_cons_self r0 t)).1
        (of_decide_eq_true (List.all_eq_true.mp hcontra r0 (List.mem_cons_self r0 t)))
    have h2 : sub_results.all
        (fun r => decide (r.verdict ≠ some Verdict.AC ∧ r.verdict ≠ some Verdict.PAC)) = true :=
      List.all_eq_true.mpr (fun r hr => decide_eq_true (hnon r hr))
    rcases hcons with rfl
    simp only [h, h2]
    simp
  · have h : sub_results.all (fun r => decide (r.verdict = some Verdict.AC)) = false := by
      rw [← Bool.not_eq_true]
      intro hcontra
      exact hnac (fun r hr => of_decide_eq_true (List.all_eq_true.mp hcontra r hr))
    have h2 : sub_results.all
        (fun r => decide (r.verdict ≠ some Verdict.AC ∧ r.verdict ≠ some Verdict.PAC)) = false := by
      rw [← Bool.not_eq_true]
      intro hcontra
      exact hnnon (fun r hr => of_decide_eq_true (List.all_eq_true.mp hcontra r hr))
    obtain ⟨r0, t, rfl⟩ := List.exists_cons_of_ne_nil hne
    simp only [h, h2]
    simp

/-- Witness for the C3 theorem: scoring sum-group over AC(5) / WA(0) / AC(5)
gives verdict AC with partial score 10 (spec scenario 2). -/
theorem aggregate_sum_scoring_witness :
    ∃ res, aggregate_results true "sum"
        [{ SubmissionResult.init (some Verdict.AC) with score := some 5 },
         { SubmissionResult.init (some Verdict.WA) with score := some 0 },
         { SubmissionResult.init (some Verdict.AC) with score := some 5 }] = Except.ok res ∧
      res.score = some 10 ∧ res.verdict = some Verdict.AC := by
  obtain ⟨res, hok, hscore, _, _, hpart⟩ := aggregate_sum_scoring
    [{ SubmissionResult.init (some Verdict.AC) with score := some 5 },
     { SubmissionResult.init (some Verdict.WA) with score := some 0 },
     { SubmissionResult.init (some Verdict.AC) with score := some 5 }]
    (by decide) (by decide) (by decide)
  refine ⟨res, hok, ?_, hpart (by decide) (by decide)⟩
  rw [hscore]
  norm_num [SubmissionResult.init, List.filterMap_cons]

/-- Claim C4 concerns the pass/fail branch of `aggregate_results` (lines
589-590).  The source as written evaluates `rews.verdict` — `rews` is an
undefined name — in the comprehension filter, so any non-empty child list on
a pass/fail problem raises `NameError` instead of producing the first non-AC
child's verdict.  This theorem evaluates the model at the failing input:
a single WA child on a pass/fail problem. -/
theorem aggregate_passfail_name_error :
    aggregate_results false "" [SubmissionResult.init (some Verdict.WA)]
      = Except.error "NameError: name rews is not defined" := by
  rfl

/-- Claim C10 (implicit): on an empty child result list (for instance when
the data filter excluded every child), min aggregation applies `min` to an
empty sequence and raises, while sum aggregation and the pass/fail branch
return a result with verdict AC. -/
theorem aggregate_empty_child_list :
    aggregate_results true "min" [] = Except.error "ValueError: min arg is an empty sequence" ∧
    (∃ res, aggregate_results true "sum" [] = Except.ok res ∧
      res.verdict = some Verdict.AC ∧ res.score = some 0) ∧
    (∀ aggregation, ∃ res, aggregate_results false aggregation [] = Except.ok res ∧
      res.verdict = some Verdict.AC ∧ res.score = none) := by
  exact ⟨rfl, ⟨_, rfl, rfl, rfl⟩, fun aggregation => ⟨_, rfl, rfl, rfl⟩⟩

/-! Time-limit inference (`Submissions.check`, lines 1591-1599). -/

/-- Python `int()` applied to a float: truncation toward zero. -/
def py_int (x : ℚ) : ℤ := if x < 0 then -⌊-x⌋ else ⌊x⌋

/-- The spec formulas write `round(...)`; on the non-negative values involved
the source computes `int(0.5 + x)`, i.e. round half up. -/
def round_half_up (x : ℚ) : ℤ := ⌊x + 1/2⌋

/-- The time-limit inference step of `Submissions.check` (lines 1593-1599),
entered after the AC batch when at least one runtime was collected:
`exact_timelim = max_runtime * time_multiplier`, then `timelim`,
`timelim_margin_lo` and `timelim_margin` as in the source. -/
def infer_limits (max_runtime time_multiplier safety_margin : ℚ) : ℤ × ℤ × ℤ :=
  let exact_timelim := max_runtime * time_multiplier
  let timelim := max 1 (py_int (1/2 + exact_timelim))
  let timelim_margin_lo := max 1 (min (py_int (1/2 + exact_timelim / safety_margin)) (timelim - 1))
  let timelim_margin := max (timelim + 1) (py_int (1/2 + exact_timelim * safety_margin))
  (timelim, timelim_margin_lo, timelim_margin)

/-- Claim C6: with `exact = max_runtime * time_multiplier` (non-negative in
all combinations used), the inferred limits are `timelim = max(1,
round(exact))`, `lo = max(1, min(round(exact / safety_margin), timelim - 1))`
and `margin = max(timelim + 1, round(exact * safety_margin))`, where `round`
is round half up; in particular max_runtime 1.4, time_multiplier 2,
safety_margin 2 gives timelim 3, lo 1, margin 6. -/
theorem time_limit_inference (mr tm sm : ℚ)
    (h1 : 0 ≤ mr * tm) (h2 : 0 ≤ mr * tm / sm) (h3 : 0 ≤ mr * tm * sm) :
    infer_limits mr tm sm =
      (max 1 (round_half_up (mr * tm)),
       max 1 (min (round_half_up (mr * tm / sm)) (max 1 (round_half_up (mr * tm)) - 1)),
       max (max 1 (round_half_up (mr * tm)) + 1) (round_half_up (mr * tm * sm))) ∧
    infer_limits (14/10) 2 2 = (3, 1, 6) := by
  have key : ∀ x : ℚ, 0 ≤ x → py_int (1/2 + x) = round_half_up x := by
    intro x hx
    unfold py_int round_half_up
    rw [if_neg (by linarith), add_comm]
  constructor
  · simp only [infer_limits]
    rw [key _ h1, key _ h2, key _ h3]
  · have f1 : py_int (1/2 + (14/10 : ℚ) * 2) = 3 := by
      unfold py_int
      rw [if_neg (by norm_num), Int.floor_eq_iff]
      norm_num
    have f2 : py_int (1/2 + (14/10 : ℚ) * 2 / 2) = 1 := by
      unfold py_int
      rw [if_neg (by norm_num), Int.floor_eq_iff]
      norm_num
    have f3 : py_int (1/2 + (14/10 : ℚ) * 2 * 2) = 6 := by
      unfold py_int
      rw [if_neg (by norm_num), Int.floor_eq_iff]
      norm_num
    simp only [infer_limits, f1, f2, f3]
    norm_num [max_def, min_def]

/-- Witness for the C6 theorem at the spec's concrete scenario (discharges
the non-negativity hypotheses at max_runtime 1.4, multiplier 2, margin 2). -/
theorem time_limit_inference_witness :
    infer_limits (14/10) 2 2 = (3, 1, 6) :=
  (time_limit_inference (14/10) 2 2 (by norm_num) (by norm_num) (by norm_num)).2

/-! Alias delegation and the per-case result cache
(`TestCase._run_submission_real` lines 234-241 and 285,
`TestCase.run_submission` lines 222-232,
`TestCase._init_result_for_testcase` lines 288-297).
Test cases are identified by naturals; a world maps each identifier to its
mutable state.  The execution phase (lines 249-261: run the submission or
the interactive coordinator and produce `res_high` with runtime recorded) is
abstracted as a function `exec` of the running case and the key; delegation,
caching and the three-limit classification are modelled exactly.  The
recursion on `reuse_result_from` chains carries explicit fuel; the loader
resolves symlinks with `realpath`, so real chains have length at most one
and any fuel of at least 2 is exact. -/

/-- The cache key tuple `(sub, args, timelim, timelim_low, timelim_high)`
(line 238); `sub` and `args` are opaque identifiers here. -/
structure CacheKey where
  sub : Nat
  args : Nat
  timelim : ℚ
  timelim_low : ℚ
  timelim_high : ℚ
deriving DecidableEq, Repr

/-- The mutable per-case state: `reuse_result_from` and `_result_cache`
(lines 146-147). -/
structure TestCaseState where
  reuse_result_from : Option Nat
  result_cache : Option (CacheKey × (SubmissionResult × SubmissionResult × SubmissionResult))
deriving DecidableEq, Repr

/-- Point update of a world. -/
def update_world (w : Nat → TestCaseState) (c : Nat) (s : TestCaseState) :
    Nat → TestCaseState :=
  fun x => if x = c then s else w x

/-- Method `TestCase._run_submission_real` (lines 234-286): delegate to the reuse
target if set; return the cached triple on a key hit; otherwise execute,
classify against the three limits, and overwrite this case's cache.  Returns
the triple, the `reused` flag and the updated world; `none` only when the
fuel is exhausted by a delegation chain longer than the fuel. -/
def run_submission_real (exec : Nat → CacheKey → SubmissionResult) :
    Nat → (Nat → TestCaseState) → Nat → CacheKey →
    Option ((SubmissionResult × SubmissionResult × SubmissionResult) × Bool × (Nat → TestCaseState))
  | 0, _, _, _ => none
  | fuel + 1, w, c, key =>
    match (w c).reuse_result_from with
    | some b => run_submission_real exec fuel w b key
    | none =>
      match (w c).result_cache with
      | some kt =>
        if kt.1 = key then some (kt.2, true, w)
        else
          let triple := classify_limits (exec c key) key.timelim key.timelim_low
          some (triple, false,
            update_world w c { reuse_result_from := none, result_cache := some (key, triple) })
      | none =>
        let triple := classify_limits (exec c key) key.timelim key.timelim_low
        some (triple, false,
          update_world w c { reuse_result_from := none, result_cache := some (key, triple) })

/-- Method `TestCase._init_result_for_testcase` (lines 288-297): shallow copy,
stamp the running case as `testcase` / `runtime_testcase`, and in scoring
mode fill a missing score from the running case's own group config (the
per-case `grading.score` on AC, else 0). -/
def init_result_for_testcase (is_scoring : Bool) (group_score : ℚ) (c : Nat)
    (r : SubmissionResult) : SubmissionResult :=
  let r := { r with testcase := some c, runtime_testcase := some c }
  if r.score = none ∧ is_scoring = true then
    if r.verdict = some Verdict.AC then { r with score := some group_score }
    else { r with score := some 0 }
  else r

/-- Method `TestCase.run_submission` (lines 222-232): run, stamp each component of
the triple for this test case, and append the primary result to its own
`sample_failures` when it is non-AC and the case lies in the sample group
(the appended result object is modelled by the case identifier). -/
def run_submission (exec : Nat → CacheKey → SubmissionResult) (is_scoring : Bool)
    (group_score : Nat → ℚ) (in_sample : Nat → Bool) (fuel : Nat)
    (w : Nat → TestCaseState) (c : Nat) (key : CacheKey) :
    Option ((SubmissionResult × SubmissionResult × SubmissionResult) × (Nat → TestCaseState)) :=
  match run_submission_real exec fuel w c key with
  | none => none
  | some (t, _reused, w2) =>
    let res := init_result_for_testcase is_scoring (group_score c) c t.1
    let res_low := init_result_for_testcase is_scoring (group_score c) c t.2.1
    let res_high := init_result_for_testcase is_scoring (group_score c) c t.2.2
    let res := if res.verdict ≠ some Verdict.AC ∧ in_sample c = true then
        { res with sample_failures := res.sample_failures ++ [c] } else res
    some ((res, res_low, res_high), w2)

/-- Stamping keeps verdict and runtime, and its score output depends only on
the group score, not on the stamped case identifier. -/
theorem init_result_projections (sc : Bool) (g : ℚ) (a b : Nat) (r : SubmissionResult) :
    (init_result_for_testcase sc g a r).verdict = r.verdict ∧
    (init_result_for_testcase sc g a r).runtime = r.runtime ∧
    (init_result_for_testcase sc g a r).score = (init_result_for_testcase sc g b r).score := by
  unfold init_result_for_testcase
  by_cases h1 : r.score = none ∧ sc = true
  · by_cases h2 : r.verdict = some Verdict.AC
    · simp [h1, h2]
    · simp [h1, h2]
  · simp [h1]

/-- The sample-failure append touches only `sample_failures`. -/
theorem sample_append_projections (r : SubmissionResult) (l : List Nat) (c : Prop)
    [Decidable c] :
    (if c then { r with sample_failures := l } else r).verdict = r.verdict ∧
    (if c then { r with sample_failures := l } else r).runtime = r.runtime ∧
    (if c then { r with sample_failures := l } else r).score = r.score := by
  split <;> exact ⟨rfl, rfl, rfl⟩

/-- Claim C8 amended: if `a` is a reuse alias of `b` (and `b` itself is not
an alias), then for every key `_run_submission_real` on `a` returns exactly
what it returns on `b` — same triple, same reused flag, same updated world —
and the run writes at most `b`'s cache entry.  At the `run_submission` level
(after `_init_result_for_testcase` stamping) the publicly returned triples
agree componentwise in verdict and runtime, and also in score whenever the
two cases' groups assign the same per-case score. -/
theorem alias_delegates (exec : Nat → CacheKey → SubmissionResult)
    (is_scoring : Bool) (group_score : Nat → ℚ) (in_sample : Nat → Bool)
    (w : Nat → TestCaseState) (a b : Nat) (key : CacheKey) (fuel : Nat)
    (ha : (w a).reuse_result_from = some b)
    (hb : (w b).reuse_result_from = none) :
    run_submission_real exec (fuel + 2) w a key
      = run_submission_real exec (fuel + 2) w b key ∧
    (∀ t r w2, run_submission_real exec (fuel + 2) w a key = some (t, r, w2) →
      ∀ x, x ≠ b → w2 x = w x) ∧
    (∀ ta wa2 tb wb2,
      run_submission exec is_scoring group_score in_sample (fuel + 2) w a key = some (ta, wa2) →
      run_submission exec is_scoring group_score in_sample (fuel + 2) w b key = some (tb, wb2) →
      (ta.1.verdict = tb.1.verdict ∧ ta.1.runtime = tb.1.runtime) ∧
      (ta.2.1.verdict = tb.2.1.verdict ∧ ta.2.1.runtime = tb.2.1.runtime) ∧
      (ta.2.2.verdict = tb.2.2.verdict ∧ ta.2.2.runtime = tb.2.2.runtime) ∧
      (group_score a = group_score b →
        ta.1.score = tb.1.score ∧ ta.2.1.score = tb.2.1.score ∧ ta.2.2.score = tb.2.2.score)) := by
  have hdeleg : run_submission_real exec (fuel + 2) w a key
      = run_submission_real exec (fuel + 2) w b key := by
    simp only [run_submission_real, ha, hb]
  refine ⟨hdeleg, ?_, ?_⟩
  · intro t r w2 hrun x hx
    rw [hdeleg] at hrun
    simp only [run_submission_real, hb] at hrun
    cases hc : (w b).result_cache with
    | none =>
      rw [hc] at hrun
      simp only [Option.some.injEq, Prod.mk.injEq] at hrun
      rw [← hrun.2.2]
      simp [update_world, hx]
    | some kt =>
      rw [hc] at hrun
      by_cases hk : kt.1 = key
      · simp only [hk, if_true, Option.some.injEq, Prod.mk.injEq] at hrun
        rw [← hrun.2.2]
      · simp only [hk, if_false, Option.some.injEq, Prod.mk.injEq] at hrun
        rw [← hrun.2.2]
        simp [update_world, hx]
  · intro ta wa2 tb wb2 hra hrb
    unfold run_submission at hra hrb
    rw [hdeleg] at hra
    cases hr : run_submission_real exec (fuel + 2) w b key with
    | none =>
      rw [hr] at hra
      exact absurd hra (by simp)
    | some trw =>
      obtain ⟨t, r, w2⟩ := trw
      rw [hr] at hra hrb
      simp only [Option.some.injEq, Prod.mk.injEq] at hra hrb
      obtain ⟨rfl, rfl⟩ := hra
      obtain ⟨rfl, rfl⟩ := hrb
      refine ⟨⟨?_, ?_⟩, ⟨?_, ?_⟩, ⟨?_, ?_⟩, fun hg => ⟨?_, ?_, ?_⟩⟩
      · dsimp only
        rw [(sample_append_projections _ _ _).1, (sample_append_projections _ _ _).1,
          (init_result_projections _ _ a b t.1).1, (init_result_projections _ _ b a t.1).1]
      · dsimp only
        rw [(sample_append_projections _ _ _).2.1, (sample_append_projections _ _ _).2.1,
          (init_result_projections _ _ a b t.1).2.1, (init_result_projections _ _ b a t.1).2.1]
      · dsimp only
        rw [(init_result_projections _ _ a b t.2.1).1, (init_result_projections _ _ b a t.2.1).1]
      · dsimp only
        rw [(init_result_projections _ _ a b t.2.1).2.1,
          (init_result_projections _ _ b a t.2.1).2.1]
      · dsimp only
        rw [(init_result_projections _ _ a b t.2.2).1, (init_result_projections _ _ b a t.2.2).1]
      · dsimp only
        rw [(init_result_projections _ _ a b t.2.2).2.1,
          (init_result_projections _ _ b a t.2.2).2.1]
      · dsimp only
        rw [hg, (sample_append_projections _ _ _).2.2, (sample_append_projections _ _ _).2.2]
        exact (init_result_projections is_scoring (group_score b) a b t.1).2.2
      · dsimp only
        rw [hg]
        exact (init_result_projections is_scoring (group_score b) a b t.2.1).2.2
      · dsimp only
        rw [hg]
        exact (init_result_projections is_scoring (group_score b) a b t.2.2).2.2

/-- Execution model for the alias scenario: every run is AC in 1 second. -/
def exec_ac1 : Nat → CacheKey → SubmissionResult :=
  fun _ _ => { SubmissionResult.init (some Verdict.AC) with runtime := 1 }

/-- A key with limits `timelim = 10`, `lo = 5`, `hi = 20`. -/
def key_demo : CacheKey := { sub := 0, args := 0, timelim := 10, timelim_low := 5, timelim_high := 20 }

/-- World in which case 0 is a reuse alias of case 1 and both caches start
empty. -/
def world_alias : Nat → TestCaseState :=
  fun c => if c = 0 then { reuse_result_from := some 1, result_cache := none }
           else { reuse_result_from := none, result_cache := none }

/-- Per-case group scores differing between the alias's group (5) and the
target's group (7); alias validation (`_check_symlinks`) compares only the
groups' output-validator flags, never their grading scores, so such a world
is reachable. -/
def group_score_demo : Nat → ℚ := fun c => if c = 0 then 5 else 7

/-- Witness for the amended C8 theorem: in the concrete alias world the raw
runs of the alias and of its target coincide. -/
theorem alias_delegates_witness :
    run_submission_real exec_ac1 2 world_alias 0 key_demo
      = run_submission_real exec_ac1 2 world_alias 1 key_demo :=
  (alias_delegates exec_ac1 true group_score_demo (fun _ => false) world_alias 0 1 key_demo 0
    (by decide) (by decide)).1

/-- Counterexample to claim C8 as stated: the claim says the triple returned
for the alias agrees with the target's in verdict, score and runtime for
every key.  Verdict and runtime always agree, but the score is stamped by
`_init_result_for_testcase` from the *running* case's own group config, so
when the alias's group assigns per-case score 5 and the target's group 7, an
AC run returns score 5 through the alias and 7 through the target. -/
theorem alias_same_result_counterexample :
    ((run_submission exec_ac1 true group_score_demo (fun _ => false) 2 world_alias 0 key_demo).map
        (fun p => p.1.1.score)) = some (some 5) ∧
    ((run_submission exec_ac1 true group_score_demo (fun _ => false) 2 world_alias 1 key_demo).map
        (fun p => p.1.1.score)) = some (some 7) ∧
    ((run_submission exec_ac1 true group_score_demo (fun _ => false) 2 world_alias 0 key_demo).map
        (fun p => p.1.1.verdict)) =
      ((run_submission exec_ac1 true group_score_demo (fun _ => false) 2 world_alias 1 key_demo).map
        (fun p => p.1.1.verdict)) := by
  refine ⟨?_, ?_, ?_⟩ <;> decide

/-! Natural sorting: `natural_sort_le` (lines 503-525), the comparison behind the
subgroup-name ordering warning.  Python string indexing is modelled with
explicit bounds: an index past the end raises IndexError (`Except.error`).
The loop fuel strictly exceeds the iteration count (each iteration advances
`i`), so the fuel case is unreachable for the inputs evaluated here. -/

/-- Python `ord('0') <= ord(c) <= ord('9')`. -/
def is_py_digit (c : Char) : Bool := decide (48 ≤ c.toNat ∧ c.toNat ≤ 57)

/-- Helper `parse_num(s, i)` (lines 507-512): read a maximal digit run starting at
`i`, returning the accumulated value and the index one past the run.  Both
callers append a NUL sentinel, so the run always ends before the end of the
list; the `none` case mirrors that boundary. -/
def parse_num (s : List Char) : Nat → Nat → Nat → Nat × Nat
  | 0, ret, i => (ret, i)
  | fuel + 1, ret, i =>
    match s[i]? with
    | some c =>
      if is_py_digit c then parse_num s fuel (ret * 10 + (c.toNat - 48)) (i + 1)
      else (ret, i)
    | none => (ret, i)

/-- The main loop of `natural_sort_le` (lines 513-525).  The digit test on
line 514 reads `b[i]` — with index `i`, not `j` — which this model
reproduces faithfully, including the IndexError Python raises when `i` is
past the end of `b` while `a[i]` is a digit. -/
def nle_loop (a b : List Char) : Nat → Nat → Nat → Except String Bool
  | 0, _, _ => Except.error "fuel exhausted"
  | fuel + 1, i, j =>
    if h : i < a.length ∧ j < b.length then
      let ai := a.get ⟨i, h.1⟩
      let bj := b.get ⟨j, h.2⟩
      if is_py_digit ai then
        match b[i]? with
        | none => Except.error "IndexError: string index out of range"
        | some bi =>
          if is_py_digit bi then
            let p := parse_num a a.length 0 i
            let q := parse_num b b.length 0 j
            if p.1 = q.1 then nle_loop a b fuel p.2 q.2
            else Except.ok (decide (p.1 < q.1))
          else
            if ai = bj then nle_loop a b fuel (i + 1) (j + 1)
            else Except.ok (decide (ai < bj))
      else
        if ai = bj then nle_loop a b fuel (i + 1) (j + 1)
        else Except.ok (decide (ai < bj))
    else Except.ok true

/-- Function `natural_sort_le(a, b)` (lines 503-525): append a NUL sentinel to both
strings and run the loop from `i = j = 0`. -/
def natural_sort_le (a b : String) : Except String Bool :=
  let a2 := a.data ++ ['\x00']
  let b2 := b.data ++ ['\x00']
  nle_loop a2 b2 (a2.length + b2.length) 0 0

/-- Claim C9 asserts `natural_sort_le` is a total order: reflexive,
transitive, and numeric on `"a" ++ N`.  The function's own comment (lines
501-502) documents the intended natural ordering, which is transitive, but
line 514 tests the digit-ness of `b[i]` where the symmetric `b[j]` is meant.
After two digit runs of equal value but different length (leading zeros) the
indices `i` and `j` diverge and the misindexed test breaks transitivity:
the code answers "x007-5" ≤ "x7-d9" and "x7-d9" ≤ "x7-d99" but not
"x007-5" ≤ "x7-d99" (there it parses the digit run 5 of the first string
against an empty run, valued 0, of the second).  The same misindexing
raises IndexError on the pair ("x007-5", "x7-c").  Reflexivity itself
holds, as the last conjunct illustrates. -/
theorem natural_sort_le_not_transitive :
    natural_sort_le "x007-5" "x7-d9" = Except.ok true ∧
    natural_sort_le "x7-d9" "x7-d99" = Except.ok true ∧
    natural_sort_le "x007-5" "x7-d99" = Except.ok false ∧
    natural_sort_le "x007-5" "x7-c" = Except.error "IndexError: string index out of range" ∧
    natural_sort_le "x007-5" "x007-5" = Except.ok true := by
  refine ⟨?_, ?_, ?_, ?_, ?_⟩ <;> rfl
